import Mathlib

/-!
# fzy: the Windows console backend of the terminal session (`src/tty_win32.c`)

A shallow embedding of `tty_win32.c`.  The C functions become state transformers over
`State`, a pair of the session record (`struct tty`) and a model of the console they
talk to through the Win32 console API.  Machine types are modelled as follows:

* `DWORD` console modes are natural numbers below `2 ^ 32`; the complement `~c` is taken
  inside the 32-bit word (`dwordNot`);
* `int` values are integers, `int` addition wraps to 32 bits (`int_add`);
* `size_t` is 64 bits wide (`SIZE_BITS`);
* `char` data are `Char`s; a C string is the list of its characters without the final NUL.

The console is a record of what the Win32 calls of the file can observe and change.  Calls
that can fail carry their outcome in the console: `CreateFileA`, `GetConsoleMode` and
`GetConsoleScreenBufferInfo` by a fixed answer, `SetConsoleMode` by one outcome per call.
`exit(EXIT_FAILURE)` in `tty_init` is an error result.  `tty_getchar` and `handle_sigwinch`
are not used by the properties proved here and are left out.
-/

namespace TtyWin32

/-! ## Machine arithmetic -/

/-- Width of a `DWORD`. -/
def DWORD_BITS : Nat := 32

/-- The C expression `~c` converted to `DWORD`: the complement inside the 32-bit word. -/
def dwordNot (c : Nat) : Nat := (2 ^ DWORD_BITS - 1) ^^^ (c % 2 ^ DWORD_BITS)

/-- Reduction of an integer to the range of a 32-bit two's complement `int`. -/
def wrap_int (v : Int) : Int := (v + 2 ^ 31) % 2 ^ 32 - 2 ^ 31

/-- The C expression `a + b` on `int` operands. -/
def int_add (a b : Int) : Int := wrap_int (a + b)

/-- Width of `size_t` (64-bit Windows). -/
def SIZE_BITS : Nat := 64

/-- Conversion of an `int` value to `size_t`. -/
def to_size_t (v : Int) : Nat := (v % 2 ^ SIZE_BITS).toNat

/-! ## Console mode flags

The values the Windows SDK headers give to the flags used by `tty_init`. -/

def ENABLE_PROCESSED_INPUT : Nat := 0x0001
def ENABLE_LINE_INPUT : Nat := 0x0002
def ENABLE_ECHO_INPUT : Nat := 0x0004
def ENABLE_VIRTUAL_TERMINAL_INPUT : Nat := 0x0200
def ENABLE_PROCESSED_OUTPUT : Nat := 0x0001
def ENABLE_VIRTUAL_TERMINAL_PROCESSING : Nat := 0x0004
def DISABLE_NEWLINE_AUTO_RETURN : Nat := 0x0008

/-! ## Data model -/

/-- The two console objects a handle of this program can refer to. -/
inductive HANDLE where
  | conin
  | conout
  deriving DecidableEq, Repr

/-- The record `struct conmode`: an input mode and an output mode. -/
structure conmode where
  inp : Nat
  out : Nat
  deriving DecidableEq, Repr

/-- The record `struct tty`.  The handles are bound by `tty_init` to `CONIN$` and
`CONOUT$` and no function of the file assigns them afterwards; the two proof fields
record that binding. -/
structure tty_t where
  hin : HANDLE
  hout : HANDLE
  original_conmode : conmode
  fgcolor : Int
  maxwidth : Nat
  maxheight : Nat
  hin_bound : hin = HANDLE.conin
  hout_bound : hout = HANDLE.conout

/-- The window rectangle `srWindow` of `CONSOLE_SCREEN_BUFFER_INFO`. -/
structure SMALL_RECT where
  Left : Int
  Top : Int
  Right : Int
  Bottom : Int
  deriving DecidableEq, Repr

/-- The console as the program observes it through the Win32 API.

* `coninAvail`, `conoutAvail`: whether `CreateFileA` yields a valid handle;
* `getInOk`, `getOutOk`: whether `GetConsoleMode` succeeds on the input and on the
  output handle;
* `setOk`: the outcomes of the `SetConsoleMode` calls still to come, `setOk 0` being
  the outcome of the next call;
* `inMode`, `outMode`: the current modes of the input buffer and the screen buffer;
* `srWindow`: the answer of `GetConsoleScreenBufferInfo`, `none` when the query fails;
* `waitResult`: the return value of `WaitForSingleObject` on the input handle, by timeout;
* `output`: the characters handed to `WriteConsoleA` so far;
* `stderr`: the diagnostics printed so far;
* `stack`: the memory at and after the address of the buffer of `tty_printf`
  (offset `i` from the start of the buffer), as it is when `tty_printf` is entered;
* `closed`: the handles passed to `CloseHandle`. -/
structure Console where
  coninAvail : Bool
  conoutAvail : Bool
  getInOk : Bool
  getOutOk : Bool
  setOk : Nat → Bool
  inMode : Nat
  outMode : Nat
  srWindow : Option SMALL_RECT
  waitResult : Int → Nat
  output : List Char
  stderr : List String
  stack : Nat → Char
  closed : List HANDLE

/-- The session record together with the console it controls. -/
structure State where
  tty : tty_t
  con : Console

/-- Reasons for which `tty_init` terminates the process instead of returning. -/
inductive InitError where
  | openConin
  | openConout
  | getModeConin
  | getModeConout
  deriving DecidableEq, Repr

/-! ## The Win32 console API on the model -/

/-- The call `CreateFileA("CONIN$" or "CONOUT$", ...)`; `none` is `INVALID_HANDLE_VALUE`. -/
def CreateFileA (con : Console) (h : HANDLE) : Option HANDLE :=
  match h with
  | HANDLE.conin => if con.coninAvail then some HANDLE.conin else none
  | HANDLE.conout => if con.conoutAvail then some HANDLE.conout else none

/-- The call `GetConsoleMode(h, &mode)`; `none` is the return value 0. -/
def GetConsoleMode (con : Console) (h : HANDLE) : Option Nat :=
  match h with
  | HANDLE.conin => if con.getInOk then some con.inMode else none
  | HANDLE.conout => if con.getOutOk then some con.outMode else none

/-- The call `SetConsoleMode(h, mode)`: the success flag and the console afterwards.
The call consumes the next outcome of `setOk`; a failed call leaves the mode as it was. -/
def SetConsoleMode (con : Console) (h : HANDLE) (mode : Nat) : Bool × Console :=
  let con1 : Console := { con with setOk := fun k => con.setOk (k + 1) }
  if con.setOk 0 then
    match h with
    | HANDLE.conin => (true, { con1 with inMode := mode })
    | HANDLE.conout => (true, { con1 with outMode := mode })
  else (false, con1)

/-- The call `GetConsoleScreenBufferInfo(h, &csbi)`, reduced to the window rectangle.
Only a screen-buffer handle can answer. -/
def GetConsoleScreenBufferInfo (con : Console) (h : HANDLE) : Option SMALL_RECT :=
  match h with
  | HANDLE.conin => none
  | HANDLE.conout => con.srWindow

/-- The call `WriteConsoleA(h, buf, n, 0, 0)`: the `n` characters found at offsets
`0 .. n - 1` from `buf` are handed to the console. -/
def WriteConsoleA (con : Console) (_h : HANDLE) (buf : Nat → Char) (n : Nat) : Console :=
  { con with output := con.output ++ (List.range n).map buf }

/-- The call `CloseHandle(h)`. -/
def CloseHandle (con : Console) (h : HANDLE) : Console :=
  { con with closed := con.closed ++ [h] }

/-- The call `WaitForSingleObject(h, timeout)`. -/
def WaitForSingleObject (con : Console) (_h : HANDLE) (timeout : Int) : Nat :=
  con.waitResult timeout

/-! ## Formatted output of the C library -/

/-- An argument of a variadic call: an `int` (also used for `%c`) or a string. -/
inductive Arg where
  | int (v : Int)
  | str (s : List Char)

/-- The conversion `%c`: the `int` argument converted to `unsigned char`. -/
def fmt_c (v : Int) : Char := Char.ofNat (v % 256).toNat

/-- The conversion `%i` (and `%d`): the decimal digits, after a minus sign when negative. -/
def fmt_i (v : Int) : List Char :=
  if v < 0 then '-' :: Nat.toDigits 10 v.natAbs else Nat.toDigits 10 v.natAbs

/-- The full rendering of a format with its arguments, for the conversions
`%c`, `%i`, `%d`, `%s` and `%%`; every other character is copied. -/
def render : List Char → List Arg → List Char
  | [], _ => []
  | [c], _ => [c]
  | c :: d :: fmt, args =>
    if c = '%' then
      if d = '%' then '%' :: render fmt args
      else match args with
        | Arg.int v :: rest =>
          if d = 'c' then fmt_c v :: render fmt rest
          else if d = 'i' ∨ d = 'd' then fmt_i v ++ render fmt rest
          else c :: render (d :: fmt) args
        | Arg.str s :: rest =>
          if d = 's' then s ++ render fmt rest
          else c :: render (d :: fmt) args
        | [] => c :: render (d :: fmt) args
    else c :: render (d :: fmt) args

/-- The call `vsnprintf(buf, size, fmt, args)`: the characters it stores at the start of
`buf` (the rendering cut to `size - 1` characters, then NUL) and its return value, the
length of the full rendering. -/
def vsnprintf (size : Nat) (fmt : List Char) (args : List Arg) : List Char × Nat :=
  let r := render fmt args
  (if size = 0 then [] else r.take (size - 1) ++ ['\x00'], r.length)

/-- The memory at `buf` after characters `stored` have been written at its start. -/
def overlay (stored : List Char) (mem : Nat → Char) (i : Nat) : Char :=
  if h : i < stored.length then stored.get ⟨i, h⟩ else mem i

/-! ## The functions of `tty_win32.c` -/

/-- The function `tty_reset`. -/
def tty_reset (s : State) : State :=
  let con1 := (SetConsoleMode s.con s.tty.hin s.tty.original_conmode.inp).2
  let con2 := (SetConsoleMode con1 s.tty.hout s.tty.original_conmode.out).2
  { s with con := con2 }

/-- The function `tty_close`: what is left is the console, the session is freed. -/
def tty_close (s : State) : Console :=
  let s1 := tty_reset s
  let con1 := CloseHandle s1.con s1.tty.hin
  CloseHandle con1 s1.tty.hout

/-- The function `tty_getwinsz`. -/
def tty_getwinsz (s : State) : State :=
  match GetConsoleScreenBufferInfo s.con s.tty.hout with
  | none => { s with tty := { s.tty with maxwidth := 80, maxheight := 25 } }
  | some w =>
    { s with tty := { s.tty with
        maxwidth := to_size_t (w.Right - w.Left + 1),
        maxheight := to_size_t (w.Bottom - w.Top + 1) } }

/-- The function `tty_input_ready`. -/
def tty_input_ready (s : State) (timeout : Int) (_return_on_signal : Int) : Bool :=
  WaitForSingleObject s.con s.tty.hin timeout = 0

/-- Size of the buffer `buf` of `tty_printf`. -/
def BUFSIZE : Nat := 1024

/-- The function `tty_printf`: `vsnprintf` into the 1024-byte buffer, whose return value
is the count given to `WriteConsoleA`. -/
def tty_printf (s : State) (fmt : List Char) (args : List Arg) : State :=
  let r := vsnprintf BUFSIZE fmt args
  { s with con := WriteConsoleA s.con s.tty.hout (overlay r.1 s.con.stack) r.2 }

/-- The function `tty_sgr`, format `"%c%c%im"`. -/
def tty_sgr (s : State) (code : Int) : State :=
  tty_printf s ['%', 'c', '%', 'c', '%', 'i', 'm'] [Arg.int 0x1b, Arg.int 0x5b, Arg.int code]

/-- The function `tty_setfg`. -/
def tty_setfg (s : State) (fg : Int) : State :=
  if s.tty.fgcolor ≠ fg then
    let s1 := tty_sgr s (int_add 30 fg)
    { s1 with tty := { s1.tty with fgcolor := fg } }
  else s

/-- The function `tty_setinvert`. -/
def tty_setinvert (s : State) : State := tty_sgr s 7

/-- The function `tty_setunderline`. -/
def tty_setunderline (s : State) : State := tty_sgr s 4

/-- The function `tty_setnormal`. -/
def tty_setnormal (s : State) : State :=
  let s1 := tty_sgr s 0
  { s1 with tty := { s1.tty with fgcolor := 9 } }

/-- The function `tty_setnowrap`, format `"%c%c?7l"`. -/
def tty_setnowrap (s : State) : State :=
  tty_printf s ['%', 'c', '%', 'c', '?', '7', 'l'] [Arg.int 0x1b, Arg.int 0x5b]

/-- The function `tty_setwrap`, format `"%c%c?7h"`. -/
def tty_setwrap (s : State) : State :=
  tty_printf s ['%', 'c', '%', 'c', '?', '7', 'h'] [Arg.int 0x1b, Arg.int 0x5b]

/-- The function `tty_newline`, format `"\r\n"`. -/
def tty_newline (s : State) : State :=
  tty_printf s ['\r', '\n'] []

/-- The function `tty_clearline`, format `"%c%cK"`. -/
def tty_clearline (s : State) : State :=
  tty_printf s ['%', 'c', '%', 'c', 'K'] [Arg.int 0x1b, Arg.int 0x5b]

/-- The function `tty_setcol`, format `"%c%c%iG"`. -/
def tty_setcol (s : State) (col : Int) : State :=
  tty_printf s ['%', 'c', '%', 'c', '%', 'i', 'G']
    [Arg.int 0x1b, Arg.int 0x5b, Arg.int (int_add col 1)]

/-- The function `tty_moveup`, format `"%c%c%iA"`. -/
def tty_moveup (s : State) (i : Int) : State :=
  tty_printf s ['%', 'c', '%', 'c', '%', 'i', 'A'] [Arg.int 0x1b, Arg.int 0x5b, Arg.int i]

/-- The call `strlen(s)`: the number of characters before the final NUL. -/
def strlen (str : List Char) : Nat := str.length

/-- The function `tty_puts`: `strlen(s)` characters read from the string, which lies in
memory followed by its NUL. -/
def tty_puts (s : State) (str : List Char) : State :=
  { s with con :=
      WriteConsoleA s.con s.tty.hout (overlay str (fun _ => '\x00')) (strlen str) }

/-- The function `tty_putc`. -/
def tty_putc (s : State) (c : Char) : State :=
  { s with con := WriteConsoleA s.con s.tty.hout (fun _ => c) 1 }

/-- The function `tty_flush`. -/
def tty_flush (s : State) : State := s

/-- The function `tty_getwidth`. -/
def tty_getwidth (s : State) : Nat := s.tty.maxwidth

/-- The function `tty_getheight`. -/
def tty_getheight (s : State) : Nat := s.tty.maxheight

/-- The raw input mode computed by `tty_init` from the original input mode. -/
def raw_in (m : Nat) : Nat :=
  (((m &&& dwordNot ENABLE_PROCESSED_INPUT) &&& dwordNot ENABLE_LINE_INPUT)
    &&& dwordNot ENABLE_ECHO_INPUT) ||| ENABLE_VIRTUAL_TERMINAL_INPUT

/-- The raw output mode computed by `tty_init` from the original output mode. -/
def raw_out (m : Nat) : Nat :=
  ((m ||| ENABLE_PROCESSED_OUTPUT) ||| ENABLE_VIRTUAL_TERMINAL_PROCESSING)
    ||| DISABLE_NEWLINE_AUTO_RETURN

/-- A diagnostic of `tty_init` is printed when the flag of a mode-set call is false. -/
def report (con : Console) (ok : Bool) (msg : String) : Console :=
  if ok then con else { con with stderr := con.stderr ++ [msg] }

/-- The function `tty_init`.  An `exit(EXIT_FAILURE)` is an error result.  The handles
that `CreateFileA` returns for `CONIN$` and `CONOUT$` are `HANDLE.conin` and
`HANDLE.conout`.  `malloc` is taken to succeed (the code does not test its result); the
fields of the fresh record that it leaves undefined are written by `tty_getwinsz` and
`tty_setnormal` before anything reads them, and start here as 0. -/
def tty_init (con : Console) : Except InitError State :=
  match CreateFileA con HANDLE.conin with
  | none => Except.error InitError.openConin
  | some _ =>
    match CreateFileA con HANDLE.conout with
    | none => Except.error InitError.openConout
    | some _ =>
      match GetConsoleMode con HANDLE.conin with
      | none => Except.error InitError.getModeConin
      | some m_in =>
        match GetConsoleMode con HANDLE.conout with
        | none => Except.error InitError.getModeConout
        | some m_out =>
          let tty : tty_t :=
            { hin := HANDLE.conin, hout := HANDLE.conout,
              original_conmode := { inp := m_in, out := m_out },
              fgcolor := 0, maxwidth := 0, maxheight := 0,
              hin_bound := rfl, hout_bound := rfl }
          let r1 := SetConsoleMode con tty.hin (raw_in tty.original_conmode.inp)
          let con1 := report r1.2 r1.1 "Failed to set raw console mode for CONIN$"
          let r2 := SetConsoleMode con1 tty.hout (raw_out tty.original_conmode.out)
          let con2 := report r2.2 r2.1 "Failed to set raw console mode for CONOUT$"
          Except.ok (tty_setnormal (tty_getwinsz { tty := tty, con := con2 }))

/-! ## Sequences of operations, decimal reading, sample consoles and sessions -/

/-- The number a string of decimal digits denotes. -/
def decimal_value (ds : List Char) : Nat :=
  ds.foldl (fun a c => 10 * a + (c.toNat - 48)) 0

/-- A console on which every call succeeds, in raw mode, with a window of 120 by 30. -/
def demo_console : Console :=
  { coninAvail := true, conoutAvail := true, getInOk := true, getOutOk := true,
    setOk := fun _ => true, inMode := 0x3f0, outMode := 0xf,
    srWindow := some { Left := 0, Top := 0, Right := 119, Bottom := 29 },
    waitResult := fun _ => 0, output := [], stderr := [], stack := fun _ => '#',
    closed := [] }

/-- A session on `demo_console` whose original modes were `0x1f7` and `0x3`. -/
def demo_session : State :=
  { tty := { hin := HANDLE.conin, hout := HANDLE.conout,
             original_conmode := { inp := 0x1f7, out := 0x3 },
             fgcolor := 9, maxwidth := 120, maxheight := 30,
             hin_bound := rfl, hout_bound := rfl },
    con := demo_console }

/-- A text of 2000 characters. -/
def long_text : List Char := List.replicate 2000 'A'

/-- The session `demo_session` on a console whose screen-buffer query fails. -/
def blind_session : State :=
  { demo_session with con := { demo_console with srWindow := none } }

/-- A call of one of the session operations, with its arguments. -/
inductive Op where
  | reset
  | getwinsz
  | setfg (fg : Int)
  | setnormal
  | setinvert
  | setunderline
  | setwrap
  | setnowrap
  | setcol (col : Int)
  | moveup (i : Int)
  | clearline
  | newline
  | printf (fmt : List Char) (args : List Arg)
  | puts (str : List Char)
  | putc (c : Char)
  | input_ready (timeout : Int) (return_on_signal : Int)
  | flush

/-- The state after a call; the value `tty_input_ready` returns is dropped. -/
def Op.apply : Op → State → State
  | Op.reset, s => tty_reset s
  | Op.getwinsz, s => tty_getwinsz s
  | Op.setfg fg, s => tty_setfg s fg
  | Op.setnormal, s => tty_setnormal s
  | Op.setinvert, s => tty_setinvert s
  | Op.setunderline, s => tty_setunderline s
  | Op.setwrap, s => tty_setwrap s
  | Op.setnowrap, s => tty_setnowrap s
  | Op.setcol col, s => tty_setcol s col
  | Op.moveup i, s => tty_moveup s i
  | Op.clearline, s => tty_clearline s
  | Op.newline, s => tty_newline s
  | Op.printf fmt args, s => tty_printf s fmt args
  | Op.puts str, s => tty_puts s str
  | Op.putc c, s => tty_putc s c
  | Op.input_ready timeout ros, s => if tty_input_ready s timeout ros then s else s
  | Op.flush, s => tty_flush s

/-- The state after a sequence of calls, first call first. -/
def run_ops : List Op → State → State
  | [], s => s
  | op :: ops, s => run_ops ops (op.apply s)

/-- What a session operation must keep for the original modes to be restorable: the
stored original modes, and that every mode-set call still to come succeeds. -/
def Restorable (m : conmode) (s : State) : Prop :=
  s.tty.original_conmode = m ∧ ∀ k, s.con.setOk k = true

/-- A console in cooked mode (input mode `0x1f7`, output mode `0x3`) on which every call
succeeds. -/
def cooked_console : Console :=
  { demo_console with inMode := 0x1f7, outMode := 0x3 }

/-- The console `cooked_console` with mode-set calls that succeed twice, fail twice and
succeed from then on. -/
def fragile_console : Console :=
  { cooked_console with setOk := fun k => decide (k < 2) || decide (4 ≤ k) }

/-- The session that `tty_init` returns on a console (`demo_session` when it returns
none). -/
def session_of (con : Console) : State :=
  match tty_init con with
  | Except.ok s => s
  | Except.error _ => demo_session

/-- A sequence of session operations that contains each operation. -/
def demo_ops : List Op :=
  [Op.getwinsz, Op.setfg 2, Op.puts ['f', 'z', 'y'], Op.setnormal, Op.setinvert,
   Op.setunderline, Op.setnowrap, Op.setcol 5, Op.printf ['%', 's'] [Arg.str long_text],
   Op.clearline, Op.newline, Op.moveup 3, Op.setwrap, Op.reset, Op.putc '>',
   Op.input_ready 100 0, Op.flush, Op.reset]

/-! ## Supporting lemmas

### Formatted output -/

theorem map_overlay_range (stored : List Char) (mem : Nat → Char) (n : Nat)
    (h : n ≤ stored.length) : (List.range n).map (overlay stored mem) = stored.take n := by
  apply List.ext_getElem
  · simp [h]
  · intro i h1 h2
    simp at h1 h2
    have : i < stored.length := by omega
    simp [overlay, this]

theorem vsnprintf_snd (size : Nat) (fmt : List Char) (args : List Arg) :
    (vsnprintf size fmt args).2 = (render fmt args).length := rfl

theorem tty_printf_tty (s : State) (fmt : List Char) (args : List Arg) :
    (tty_printf s fmt args).tty = s.tty := rfl

theorem tty_printf_short (s : State) (fmt : List Char) (args : List Arg)
    (h : (render fmt args).length < BUFSIZE) :
    tty_printf s fmt args =
      { s with con := { s.con with output := s.con.output ++ render fmt args } } := by
  have h0 : (render fmt args).take (BUFSIZE - 1) = render fmt args :=
    List.take_of_length_le (by simp only [BUFSIZE] at *; omega)
  have h1 : (List.range (render fmt args).length).map
      (overlay (vsnprintf BUFSIZE fmt args).1 s.con.stack) = render fmt args := by
    have hs : (vsnprintf BUFSIZE fmt args).1 = render fmt args ++ [Char.ofNat 0] := by
      simp only [vsnprintf, h0]
      simp [BUFSIZE]
    rw [hs, map_overlay_range _ _ _ (by simp)]
    simp
  simp only [tty_printf, WriteConsoleA, vsnprintf_snd, h1]

theorem wrap_int_range (v : Int) : -2 ^ 31 ≤ wrap_int v ∧ wrap_int v < 2 ^ 31 := by
  unfold wrap_int
  constructor <;> omega

theorem wrap_int_id (v : Int) (h1 : -2 ^ 31 ≤ v) (h2 : v < 2 ^ 31) : wrap_int v = v := by
  unfold wrap_int
  omega

theorem toDigits_length_le (n : Nat) (h : n < 10 ^ 10) : (Nat.toDigits 10 n).length ≤ 10 :=
  Nat.toDigitsCore_length 10 (by decide) (n + 1) n 10 h (by decide)

theorem fmt_i_length (v : Int) (h1 : -2 ^ 31 ≤ v) (h2 : v < 2 ^ 31) : (fmt_i v).length ≤ 11 := by
  have h : v.natAbs < 10 ^ 10 := by omega
  have := toDigits_length_le v.natAbs h
  unfold fmt_i
  split <;> simp <;> omega

theorem render_sgr (code : Int) :
    render ['%', 'c', '%', 'c', '%', 'i', 'm'] [Arg.int 0x1b, Arg.int 0x5b, Arg.int code]
      = '\x1b' :: '[' :: (fmt_i code ++ ['m']) := by
  simp [render, fmt_c]

theorem tty_sgr_eq (s : State) (code : Int) (h1 : -2 ^ 31 ≤ code) (h2 : code < 2 ^ 31) :
    tty_sgr s code =
      { s with con := { s.con with
          output := s.con.output ++ '\x1b' :: '[' :: (fmt_i code ++ ['m']) } } := by
  unfold tty_sgr
  rw [tty_printf_short, render_sgr]
  rw [render_sgr]
  have := fmt_i_length code h1 h2
  simp [BUFSIZE]
  omega

theorem int_add_range (a b : Int) : -2 ^ 31 ≤ int_add a b ∧ int_add a b < 2 ^ 31 :=
  wrap_int_range (a + b)

theorem tty_setfg_of_ne (s : State) (c : Int) (h : s.tty.fgcolor ≠ c) :
    tty_setfg s c =
      { tty := { s.tty with fgcolor := c },
        con := { s.con with
          output := s.con.output ++ '\x1b' :: '[' :: (fmt_i (int_add 30 c) ++ ['m']) } } := by
  unfold tty_setfg
  rw [if_pos h, tty_sgr_eq s _ (int_add_range 30 c).1 (int_add_range 30 c).2]

theorem tty_setfg_of_eq (s : State) (c : Int) (h : s.tty.fgcolor = c) : tty_setfg s c = s := by
  unfold tty_setfg
  simp [h]

theorem tty_setnormal_eq (s : State) :
    tty_setnormal s =
      { tty := { s.tty with fgcolor := 9 },
        con := { s.con with output := s.con.output ++ ['\x1b', '[', '0', 'm'] } } := by
  unfold tty_setnormal
  rw [tty_sgr_eq s 0 (by decide) (by decide)]
  rfl

theorem tty_init_fgcolor (con : Console) (s : State) (h : tty_init con = Except.ok s) :
    s.tty.fgcolor = 9 := by
  unfold tty_init at h
  split at h
  · cases h
  · split at h
    · cases h
    · split at h
      · cases h
      · split at h
        · cases h
        · cases h
          rw [tty_setnormal_eq]

theorem digitChar_value (k : Nat) (h : k < 10) : (Nat.digitChar k).toNat - 48 = k := by
  interval_cases k <;> rfl

theorem foldl_decimal_shift (ds : List Char) (a : Nat) :
    ds.foldl (fun a c => 10 * a + (c.toNat - 48)) a
      = a * 10 ^ ds.length + ds.foldl (fun a c => 10 * a + (c.toNat - 48)) 0 := by
  induction ds generalizing a with
  | nil => simp
  | cons d ds ih =>
    simp only [List.foldl_cons, List.length_cons]
    rw [ih (10 * a + (d.toNat - 48)), ih (10 * 0 + (d.toNat - 48))]
    ring

theorem toDigitsCore_value (fuel : Nat) : ∀ (n : Nat) (ds : List Char), n < fuel →
    decimal_value (Nat.toDigitsCore 10 fuel n ds) = n * 10 ^ ds.length + decimal_value ds := by
  induction fuel with
  | zero => intro n ds h; omega
  | succ fuel ih =>
    intro n ds h
    have hd := digitChar_value (n % 10) (Nat.mod_lt _ (by decide))
    have hcons : decimal_value (Nat.digitChar (n % 10) :: ds)
        = (n % 10) * 10 ^ ds.length + decimal_value ds := by
      unfold decimal_value
      simp only [List.foldl_cons]
      rw [foldl_decimal_shift, hd]
      ring
    simp only [Nat.toDigitsCore]
    split
    · rename_i h0
      rw [hcons]
      have : n % 10 = n := by omega
      rw [this]
    · rename_i h0
      rw [ih (n / 10) _ (by omega), hcons]
      simp only [List.length_cons, pow_succ]
      have hn : n * 10 ^ ds.length = (10 * (n / 10) + n % 10) * 10 ^ ds.length := by
        rw [Nat.div_add_mod n 10]
      rw [hn]
      ring

theorem toDigits_value (n : Nat) : decimal_value (Nat.toDigits 10 n) = n := by
  unfold Nat.toDigits
  rw [toDigitsCore_value (n + 1) n [] (by omega)]
  simp [decimal_value]

theorem render_setcol (v : Int) :
    render ['%', 'c', '%', 'c', '%', 'i', 'G'] [Arg.int 0x1b, Arg.int 0x5b, Arg.int v]
      = '\x1b' :: '[' :: (fmt_i v ++ ['G']) := by
  simp [render, fmt_c]

theorem tty_printf_length (s : State) (fmt : List Char) (args : List Arg) :
    (tty_printf s fmt args).con.output.length
      = s.con.output.length + (render fmt args).length := by
  simp [tty_printf, WriteConsoleA, vsnprintf]

/-! ### Bits of the raw modes -/

theorem and_two_pow_eq (x k : Nat) : x &&& 2 ^ k = if x.testBit k then 2 ^ k else 0 := by
  apply Nat.eq_of_testBit_eq
  intro i
  rw [Nat.testBit_and]
  by_cases h : k = i
  · subst h
    cases hx : x.testBit k <;> simp [hx, Nat.testBit_two_pow_self]
  · cases hx : x.testBit k <;> simp [Nat.testBit_two_pow_of_ne h]

theorem testBit_high (m i : Nat) (hm : m < 2 ^ 32) (hi : 32 ≤ i) : m.testBit i = false :=
  Nat.testBit_lt_two_pow (lt_of_lt_of_le hm (Nat.pow_le_pow_right (by decide) hi))

theorem testBit_raw_in (m i : Nat) (hm : m < 2 ^ 32) :
    (raw_in m).testBit i
      = if i = 0 ∨ i = 1 ∨ i = 2 then false else if i = 9 then true else m.testBit i := by
  unfold raw_in
  simp only [Nat.testBit_or, Nat.testBit_and]
  by_cases hi : i < 32
  · have c1 : ∀ j < 32, (dwordNot ENABLE_PROCESSED_INPUT).testBit j = decide (j ≠ 0) := by
      decide
    have c2 : ∀ j < 32, (dwordNot ENABLE_LINE_INPUT).testBit j = decide (j ≠ 1) := by decide
    have c3 : ∀ j < 32, (dwordNot ENABLE_ECHO_INPUT).testBit j = decide (j ≠ 2) := by decide
    have c4 : ∀ j < 32, ENABLE_VIRTUAL_TERMINAL_INPUT.testBit j = decide (j = 9) := by decide
    rw [c1 i hi, c2 i hi, c3 i hi, c4 i hi]
    by_cases h0 : i = 0
    · simp [h0]
    by_cases h1 : i = 1
    · simp [h1]
    by_cases h2 : i = 2
    · simp [h2]
    by_cases h9 : i = 9
    · simp [h9]
    simp [h0, h1, h2, h9]
  · have hi2 : 32 ≤ i := by omega
    rw [testBit_high m i hm hi2,
      testBit_high ENABLE_VIRTUAL_TERMINAL_INPUT i (by decide) hi2]
    have : ¬ (i = 0 ∨ i = 1 ∨ i = 2) := by omega
    have h9 : ¬ i = 9 := by omega
    simp [this, h9, testBit_high m i hm hi2]

theorem testBit_raw_out (m i : Nat) :
    (raw_out m).testBit i = if i = 0 ∨ i = 2 ∨ i = 3 then true else m.testBit i := by
  unfold raw_out
  simp only [Nat.testBit_or]
  have e1 : ENABLE_PROCESSED_OUTPUT = 2 ^ 0 := rfl
  have e2 : ENABLE_VIRTUAL_TERMINAL_PROCESSING = 2 ^ 2 := rfl
  have e3 : DISABLE_NEWLINE_AUTO_RETURN = 2 ^ 3 := rfl
  rw [e1, e2, e3, Nat.testBit_two_pow, Nat.testBit_two_pow, Nat.testBit_two_pow]
  by_cases h0 : i = 0
  · simp [h0]
  by_cases h2 : i = 2
  · simp [h2]
  by_cases h3 : i = 3
  · simp [h3]
  have a0 : ¬ 0 = i := fun h => h0 h.symm
  have a2 : ¬ 2 = i := fun h => h2 h.symm
  have a3 : ¬ 3 = i := fun h => h3 h.symm
  simp [h0, h2, h3, a0, a2, a3]

/-! ### Mode restoration -/

theorem tty_reset_inMode (s : State) :
    (tty_reset s).con.inMode
      = if s.con.setOk 0 = true then s.tty.original_conmode.inp else s.con.inMode := by
  unfold tty_reset
  rw [s.tty.hin_bound, s.tty.hout_bound]
  cases h0 : s.con.setOk 0 <;> cases h1 : s.con.setOk 1 <;> simp [SetConsoleMode, h0, h1]

theorem tty_reset_outMode (s : State) :
    (tty_reset s).con.outMode
      = if s.con.setOk 1 = true then s.tty.original_conmode.out else s.con.outMode := by
  unfold tty_reset
  rw [s.tty.hin_bound, s.tty.hout_bound]
  cases h0 : s.con.setOk 0 <;> cases h1 : s.con.setOk 1 <;> simp [SetConsoleMode, h0, h1]

theorem tty_reset_setOk (s : State) (k : Nat) :
    (tty_reset s).con.setOk k = s.con.setOk (k + 2) := by
  unfold tty_reset
  rw [s.tty.hin_bound, s.tty.hout_bound]
  cases h0 : s.con.setOk 0 <;> cases h1 : s.con.setOk 1 <;> simp [SetConsoleMode, h0, h1]

theorem tty_reset_of_all_ok (s : State) (h : ∀ k, s.con.setOk k = true) :
    tty_reset s
      = { s with con := { s.con with
            inMode := s.tty.original_conmode.inp, outMode := s.tty.original_conmode.out } } := by
  have hs : (fun k => s.con.setOk (k + 1 + 1)) = s.con.setOk :=
    funext (fun k => by rw [h (k + 1 + 1), h k])
  unfold tty_reset
  rw [s.tty.hin_bound, s.tty.hout_bound]
  simp [SetConsoleMode, h 0, h 1, hs]

theorem restorable_printf (m : conmode) (s : State) (fmt : List Char) (args : List Arg)
    (h : Restorable m s) : Restorable m (tty_printf s fmt args) := h

theorem restorable_reset (m : conmode) (s : State) (h : Restorable m s) :
    Restorable m (tty_reset s) := by
  refine ⟨h.1, ?_⟩
  intro k
  rw [tty_reset_setOk]
  exact h.2 (k + 2)

theorem restorable_getwinsz (m : conmode) (s : State) (h : Restorable m s) :
    Restorable m (tty_getwinsz s) := by
  unfold tty_getwinsz
  split <;> exact h

theorem restorable_setfg (m : conmode) (s : State) (fg : Int) (h : Restorable m s) :
    Restorable m (tty_setfg s fg) := by
  unfold tty_setfg
  split
  · exact h
  · exact h

theorem restorable_apply (m : conmode) (op : Op) (s : State) (h : Restorable m s) :
    Restorable m (op.apply s) := by
  cases op with
  | reset => exact restorable_reset m s h
  | getwinsz => exact restorable_getwinsz m s h
  | setfg fg => exact restorable_setfg m s fg h
  | input_ready t r =>
    simp only [Op.apply, ite_self]
    exact h
  | _ => exact h

theorem restorable_run_ops (m : conmode) (ops : List Op) :
    ∀ s : State, Restorable m s → Restorable m (run_ops ops s) := by
  induction ops with
  | nil => intro s h; exact h
  | cons op ops ih => intro s h; exact ih _ (restorable_apply m op s h)

theorem tty_close_modes (s : State) :
    (tty_close s).inMode = (tty_reset s).con.inMode
      ∧ (tty_close s).outMode = (tty_reset s).con.outMode := ⟨rfl, rfl⟩

/-- The state `tty_init` returns when both handles open and both modes are read. -/
theorem tty_init_ok (con : Console) (h1 : con.coninAvail = true) (h2 : con.conoutAvail = true)
    (h3 : con.getInOk = true) (h4 : con.getOutOk = true) :
    tty_init con = Except.ok (tty_setnormal (tty_getwinsz
      { tty := { hin := HANDLE.conin, hout := HANDLE.conout,
                 original_conmode := { inp := con.inMode, out := con.outMode },
                 fgcolor := 0, maxwidth := 0, maxheight := 0,
                 hin_bound := rfl, hout_bound := rfl },
        con := report
          (SetConsoleMode
            (report (SetConsoleMode con HANDLE.conin (raw_in con.inMode)).2
              (SetConsoleMode con HANDLE.conin (raw_in con.inMode)).1
              "Failed to set raw console mode for CONIN$")
            HANDLE.conout (raw_out con.outMode)).2
          (SetConsoleMode
            (report (SetConsoleMode con HANDLE.conin (raw_in con.inMode)).2
              (SetConsoleMode con HANDLE.conin (raw_in con.inMode)).1
              "Failed to set raw console mode for CONIN$")
            HANDLE.conout (raw_out con.outMode)).1
          "Failed to set raw console mode for CONOUT$" })) := by
  simp [tty_init, CreateFileA, GetConsoleMode, h1, h2, h3, h4]

theorem tty_init_flags (con : Console) (s : State) (h : tty_init con = Except.ok s) :
    con.coninAvail = true ∧ con.conoutAvail = true ∧ con.getInOk = true
      ∧ con.getOutOk = true := by
  unfold tty_init CreateFileA GetConsoleMode at h
  cases h1 : con.coninAvail <;> cases h2 : con.conoutAvail <;> cases h3 : con.getInOk <;>
    cases h4 : con.getOutOk <;> simp [h1, h2, h3, h4] at h ⊢

theorem report_eq (con : Console) (ok : Bool) (msg : String) :
    (report con ok msg).inMode = con.inMode ∧ (report con ok msg).outMode = con.outMode
      ∧ (report con ok msg).setOk = con.setOk ∧ (report con ok msg).output = con.output := by
  unfold report
  split <;> exact ⟨rfl, rfl, rfl, rfl⟩

theorem tty_getwinsz_frame (s : State) :
    (tty_getwinsz s).con = s.con
      ∧ (tty_getwinsz s).tty.original_conmode = s.tty.original_conmode := by
  unfold tty_getwinsz
  split <;> exact ⟨rfl, rfl⟩

/-- What `tty_init` returns when both handles open and both modes are read: the stored
original modes, the mode-set outcomes left, and the modes of the console. -/
theorem tty_init_facts (con : Console) (h1 : con.coninAvail = true)
    (h2 : con.conoutAvail = true) (h3 : con.getInOk = true) (h4 : con.getOutOk = true) :
    ∃ s, tty_init con = Except.ok s
      ∧ s.tty.original_conmode = { inp := con.inMode, out := con.outMode }
      ∧ (∀ k, s.con.setOk k = con.setOk (k + 2))
      ∧ s.con.inMode = (if con.setOk 0 = true then raw_in con.inMode else con.inMode)
      ∧ s.con.outMode = (if con.setOk 1 = true then raw_out con.outMode else con.outMode) := by
  refine ⟨_, tty_init_ok con h1 h2 h3 h4, ?_, ?_, ?_, ?_⟩
  · rw [tty_setnormal_eq]
    exact (tty_getwinsz_frame _).2
  · intro k
    rw [tty_setnormal_eq]
    simp only [(tty_getwinsz_frame _).1, (report_eq _ _ _).2.2.1]
    cases h0 : con.setOk 0 <;> cases h1 : con.setOk 1 <;> simp [SetConsoleMode, h0, h1, report]
  · rw [tty_setnormal_eq]
    simp only [(tty_getwinsz_frame _).1, (report_eq _ _ _).1]
    cases h0 : con.setOk 0 <;> cases h1 : con.setOk 1 <;> simp [SetConsoleMode, h0, h1, report]
  · rw [tty_setnormal_eq]
    simp only [(tty_getwinsz_frame _).1, (report_eq _ _ _).2.1]
    cases h0 : con.setOk 0 <;> cases h1 : con.setOk 1 <;> simp [SetConsoleMode, h0, h1, report]

/-! ## The properties of the specification -/

/-- C1 (restoration invariant).  On a console whose mode-set calls all succeed and on which
`tty_init` can open both handles and read both modes, `tty_init` returns a session, and
after every finite sequence of session operations on it `tty_close` leaves the input mode
and the output mode the console had before `tty_init`. -/
theorem tty_close_restores_modes (con : Console) (ops : List Op)
    (hset : ∀ k, con.setOk k = true)
    (h1 : con.coninAvail = true) (h2 : con.conoutAvail = true)
    (h3 : con.getInOk = true) (h4 : con.getOutOk = true) :
    ∃ s, tty_init con = Except.ok s
      ∧ (tty_close (run_ops ops s)).inMode = con.inMode
      ∧ (tty_close (run_ops ops s)).outMode = con.outMode := by
  obtain ⟨s, hs, ho, hk, _, _⟩ := tty_init_facts con h1 h2 h3 h4
  have hr : Restorable { inp := con.inMode, out := con.outMode } (run_ops ops s) :=
    restorable_run_ops _ ops s ⟨ho, fun k => by rw [hk k, hset]⟩
  refine ⟨s, hs, ?_, ?_⟩
  · rw [(tty_close_modes _).1, tty_reset_inMode, if_pos (hr.2 0), hr.1]
  · rw [(tty_close_modes _).2, tty_reset_outMode, if_pos (hr.2 1), hr.1]

/-- C1 on `cooked_console` with the operations `demo_ops`. -/
theorem tty_close_restores_modes_witness :
    ∃ s, tty_init cooked_console = Except.ok s
      ∧ (tty_close (run_ops demo_ops s)).inMode = 0x1f7
      ∧ (tty_close (run_ops demo_ops s)).outMode = 0x3 :=
  tty_close_restores_modes cooked_console demo_ops (fun _ => rfl) rfl rfl rfl rfl

/-- C2 (when `tty_init` returns).  `tty_init` returns a session exactly when both console
handles open and both console modes are read, whatever the outcomes of the mode-set calls
that apply the raw mode; otherwise it ends with the error of the first step that fails. -/
theorem tty_init_returns_iff (con : Console) :
    ((∃ s, tty_init con = Except.ok s)
        ↔ (con.coninAvail = true ∧ con.conoutAvail = true ∧ con.getInOk = true
            ∧ con.getOutOk = true))
      ∧ ((∃ e, tty_init con = Except.error e)
        ↔ (con.coninAvail = false ∨ con.conoutAvail = false ∨ con.getInOk = false
            ∨ con.getOutOk = false)) := by
  constructor
  · constructor
    · rintro ⟨s, hs⟩
      exact tty_init_flags con s hs
    · rintro ⟨h1, h2, h3, h4⟩
      exact ⟨_, tty_init_ok con h1 h2 h3 h4⟩
  · constructor
    · rintro ⟨e, he⟩
      cases h1 : con.coninAvail <;> cases h2 : con.conoutAvail <;> cases h3 : con.getInOk <;>
        cases h4 : con.getOutOk <;> simp
      rw [tty_init_ok con h1 h2 h3 h4] at he
      cases he
    · intro h
      cases h1 : con.coninAvail <;> cases h2 : con.conoutAvail <;> cases h3 : con.getInOk <;>
        cases h4 : con.getOutOk <;>
        simp [h1, h2, h3, h4, tty_init, CreateFileA, GetConsoleMode] at h ⊢

/-- C3 (raw mode).  When `tty_init` returns a session on a console whose input mode is a
32-bit word: the session stores the modes the console had, unmodified; each mode-set call
that succeeds leaves the console in the raw mode computed from them (`raw_in`, `raw_out`);
the raw input mode has the processed-input, line-input and echo-input flags clear and the
virtual-terminal-input flag set; the raw output mode has the processed-output,
virtual-terminal-processing and disable-newline-auto-return flags set; and every bit outside
those flags is the bit of the original mode. -/
theorem tty_init_raw_mode (con : Console) (s : State) (hm : con.inMode < 2 ^ 32)
    (h : tty_init con = Except.ok s) :
    s.tty.original_conmode = { inp := con.inMode, out := con.outMode }
      ∧ s.con.inMode = (if con.setOk 0 = true then raw_in con.inMode else con.inMode)
      ∧ s.con.outMode = (if con.setOk 1 = true then raw_out con.outMode else con.outMode)
      ∧ raw_in con.inMode &&& ENABLE_PROCESSED_INPUT = 0
      ∧ raw_in con.inMode &&& ENABLE_LINE_INPUT = 0
      ∧ raw_in con.inMode &&& ENABLE_ECHO_INPUT = 0
      ∧ raw_in con.inMode &&& ENABLE_VIRTUAL_TERMINAL_INPUT = ENABLE_VIRTUAL_TERMINAL_INPUT
      ∧ (∀ i, (ENABLE_PROCESSED_INPUT ||| ENABLE_LINE_INPUT ||| ENABLE_ECHO_INPUT
                |||ENABLE_VIRTUAL_TERMINAL_INPUT).testBit i = false →
            (raw_in con.inMode).testBit i = con.inMode.testBit i)
      ∧ raw_out con.outMode &&& ENABLE_PROCESSED_OUTPUT = ENABLE_PROCESSED_OUTPUT
      ∧ raw_out con.outMode &&& ENABLE_VIRTUAL_TERMINAL_PROCESSING
          = ENABLE_VIRTUAL_TERMINAL_PROCESSING
      ∧ raw_out con.outMode &&& DISABLE_NEWLINE_AUTO_RETURN = DISABLE_NEWLINE_AUTO_RETURN
      ∧ (∀ i, (ENABLE_PROCESSED_OUTPUT ||| ENABLE_VIRTUAL_TERMINAL_PROCESSING
                ||| DISABLE_NEWLINE_AUTO_RETURN).testBit i = false →
            (raw_out con.outMode).testBit i = con.outMode.testBit i) := by
  obtain ⟨f1, f2, f3, f4⟩ := tty_init_flags con s h
  obtain ⟨s1, hs1, ho, _, hi, hout⟩ := tty_init_facts con f1 f2 f3 f4
  have hs : s1 = s := by
    rw [hs1] at h
    exact Except.ok.inj h
  subst hs
  have p0 : ENABLE_PROCESSED_INPUT = 2 ^ 0 := rfl
  have p1 : ENABLE_LINE_INPUT = 2 ^ 1 := rfl
  have p2 : ENABLE_ECHO_INPUT = 2 ^ 2 := rfl
  have p9 : ENABLE_VIRTUAL_TERMINAL_INPUT = 2 ^ 9 := rfl
  have q0 : ENABLE_PROCESSED_OUTPUT = 2 ^ 0 := rfl
  have q2 : ENABLE_VIRTUAL_TERMINAL_PROCESSING = 2 ^ 2 := rfl
  have q3 : DISABLE_NEWLINE_AUTO_RETURN = 2 ^ 3 := rfl
  refine ⟨ho, hi, hout, ?_, ?_, ?_, ?_, ?_, ?_, ?_, ?_, ?_⟩
  · rw [p0, and_two_pow_eq, testBit_raw_in _ _ hm]
    simp
  · rw [p1, and_two_pow_eq, testBit_raw_in _ _ hm]
    simp
  · rw [p2, and_two_pow_eq, testBit_raw_in _ _ hm]
    simp
  · rw [p9, and_two_pow_eq, testBit_raw_in _ _ hm]
    simp
  · intro i hi2
    rw [p0, p1, p2, p9] at hi2
    simp only [Nat.testBit_or, Nat.testBit_two_pow, Bool.or_eq_false_iff,
      decide_eq_false_iff_not] at hi2
    obtain ⟨⟨⟨a0, a1⟩, a2⟩, a9⟩ := hi2
    rw [testBit_raw_in _ _ hm, if_neg (by omega), if_neg (by omega)]
  · rw [q0, and_two_pow_eq, testBit_raw_out]
    simp
  · rw [q2, and_two_pow_eq, testBit_raw_out]
    simp
  · rw [q3, and_two_pow_eq, testBit_raw_out]
    simp
  · intro i hi2
    rw [q0, q2, q3] at hi2
    simp only [Nat.testBit_or, Nat.testBit_two_pow, Bool.or_eq_false_iff,
      decide_eq_false_iff_not] at hi2
    obtain ⟨⟨a0, a2⟩, a3⟩ := hi2
    rw [testBit_raw_out, if_neg (by omega)]

/-- C3 on `cooked_console`: the original modes `0x1f7` and `0x3` are stored, the console is
left in the raw modes `0x3f0` and `0xf`. -/
theorem tty_init_raw_mode_witness :
    cooked_console.inMode < 2 ^ 32
      ∧ tty_init cooked_console = Except.ok (session_of cooked_console)
      ∧ (session_of cooked_console).tty.original_conmode = { inp := 0x1f7, out := 0x3 }
      ∧ (session_of cooked_console).con.inMode = 0x3f0
      ∧ (session_of cooked_console).con.outMode = 0xf :=
  have hs : tty_init cooked_console = Except.ok (session_of cooked_console) := by
    rw [session_of, tty_init_ok cooked_console rfl rfl rfl rfl]
  have h := tty_init_raw_mode cooked_console (session_of cooked_console) (by decide) hs
  ⟨by decide, hs, h.1, h.2.1.trans (by decide), h.2.2.1.trans (by decide)⟩

/-- C4 (colour suppression).  On a session whose tracked colour differs from `c`, the first
`tty_setfg c` appends exactly ESC `[` decimal(30 + c) `m` (the sum is the C `int` sum, equal
to the integer `30 + c` whenever that is representable), a second `tty_setfg c` leaves the
whole state as it is, and `tty_setfg d` with `d` different from `c` appends the sequence of
`d` after the one of `c` and leaves `d` as tracked colour. -/
theorem tty_setfg_suppresses_repeat (s : State) (c d : Int)
    (hc : s.tty.fgcolor ≠ c) (hd : d ≠ c) :
    (tty_setfg s c).con.output
        = s.con.output ++ '\x1b' :: '[' :: (fmt_i (int_add 30 c) ++ ['m'])
      ∧ (tty_setfg s c).tty.fgcolor = c
      ∧ tty_setfg (tty_setfg s c) c = tty_setfg s c
      ∧ (tty_setfg (tty_setfg s c) d).con.output
          = (s.con.output ++ '\x1b' :: '[' :: (fmt_i (int_add 30 c) ++ ['m']))
              ++ '\x1b' :: '[' :: (fmt_i (int_add 30 d) ++ ['m'])
      ∧ (tty_setfg (tty_setfg s c) d).tty.fgcolor = d
      ∧ (-2 ^ 31 ≤ 30 + c → 30 + c < 2 ^ 31 → int_add 30 c = 30 + c) := by
  have h1 := tty_setfg_of_ne s c hc
  have h2 : (tty_setfg s c).tty.fgcolor ≠ d := by
    rw [h1]
    exact fun h => hd h.symm
  refine ⟨by rw [h1], by rw [h1], tty_setfg_of_eq _ c (by rw [h1]), ?_, ?_, ?_⟩
  · rw [tty_setfg_of_ne _ d h2, h1]
  · rw [tty_setfg_of_ne _ d h2]
  · intro ha hb
    exact wrap_int_id _ ha hb

/-- C4 at the default-coloured session `demo_session`, colours 2 and 3. -/
theorem tty_setfg_suppresses_repeat_witness :
    (tty_setfg demo_session 2).con.output = ['\x1b', '[', '3', '2', 'm']
      ∧ tty_setfg (tty_setfg demo_session 2) 2 = tty_setfg demo_session 2
      ∧ (tty_setfg (tty_setfg demo_session 2) 3).con.output
          = ['\x1b', '[', '3', '2', 'm', '\x1b', '[', '3', '3', 'm'] :=
  have h := tty_setfg_suppresses_repeat demo_session 2 3 (by decide) (by decide)
  ⟨h.1, h.2.2.1, h.2.2.2.1⟩

/-- C5, counterexample.  Right after `tty_setnormal` the call `tty_setfg 9` is suppressed:
it writes nothing, so no colour sequence for 9 is emitted. -/
theorem tty_setfg_nine_suppressed_after_setnormal :
    (tty_setfg (tty_setnormal demo_session) 9).con.output
        = (tty_setnormal demo_session).con.output
      ∧ (tty_setfg (tty_setnormal demo_session) 9).con.output
        ≠ (tty_setnormal demo_session).con.output
            ++ '\x1b' :: '[' :: (fmt_i (int_add 30 9) ++ ['m']) := by
  have h : tty_setfg (tty_setnormal demo_session) 9 = tty_setnormal demo_session :=
    tty_setfg_of_eq _ 9 (by rw [tty_setnormal_eq])
  rw [h]
  exact ⟨rfl, by simp⟩

/-- C5, amended.  `tty_setnormal` appends exactly ESC `[` `0` `m` and records 9 as tracked
colour; for every colour code `c` other than 9, `tty_setfg c` right after `tty_setnormal`
appends ESC `[` decimal(30 + c) `m`, and so does the first `tty_setfg c` on a session that
`tty_init` has just returned. -/
theorem tty_setfg_after_setnormal (s : State) (c : Int) (hc : c ≠ 9) :
    (tty_setnormal s).con.output = s.con.output ++ ['\x1b', '[', '0', 'm']
      ∧ (tty_setnormal s).tty.fgcolor = 9
      ∧ (tty_setfg (tty_setnormal s) c).con.output
          = (tty_setnormal s).con.output ++ '\x1b' :: '[' :: (fmt_i (int_add 30 c) ++ ['m'])
      ∧ (∀ (con : Console) (s1 : State), tty_init con = Except.ok s1 →
          (tty_setfg s1 c).con.output
            = s1.con.output ++ '\x1b' :: '[' :: (fmt_i (int_add 30 c) ++ ['m'])) := by
  have h9 : (tty_setnormal s).tty.fgcolor = 9 := by rw [tty_setnormal_eq]
  refine ⟨by rw [tty_setnormal_eq], h9, ?_, ?_⟩
  · rw [tty_setfg_of_ne _ c (by rw [h9]; exact fun h => hc h.symm)]
  · intro con s1 h1
    rw [tty_setfg_of_ne _ c (by rw [tty_init_fgcolor con s1 h1]; exact fun h => hc h.symm)]

/-- C5, amended, at colour 2 on `demo_session`. -/
theorem tty_setfg_after_setnormal_witness :
    (2 : Int) ≠ 9
      ∧ (tty_setfg (tty_setnormal demo_session) 2).con.output
          = ['\x1b', '[', '0', 'm', '\x1b', '[', '3', '2', 'm'] :=
  ⟨by decide, ((tty_setfg_after_setnormal demo_session 2 (by decide)).2.2.1).trans
    (by rw [tty_setnormal_eq]; rfl)⟩

/-- C6, the code at a rendering of 2000 characters (format `"%s"`).  The count that
`tty_printf` gives to `WriteConsoleA` is 2000, above the 1024 bytes of the buffer: 2000
characters reach the output, which therefore is not the part of the rendering that fits
in the buffer, and the character at offset 1024 is the one found in memory after the
buffer. -/
theorem tty_printf_reads_past_buffer :
    (vsnprintf BUFSIZE ['%', 's'] [Arg.str long_text]).2 = 2000
      ∧ BUFSIZE < (vsnprintf BUFSIZE ['%', 's'] [Arg.str long_text]).2
      ∧ (tty_printf demo_session ['%', 's'] [Arg.str long_text]).con.output.length = 2000
      ∧ (tty_printf demo_session ['%', 's'] [Arg.str long_text]).con.output
          ≠ (render ['%', 's'] [Arg.str long_text]).take (BUFSIZE - 1)
      ∧ (tty_printf demo_session ['%', 's'] [Arg.str long_text]).con.output.get? 1024
          = some (demo_session.con.stack 1024) := by
  have hr : render ['%', 's'] [Arg.str long_text] = long_text := by
    simp [render]
  have hl : long_text.length = 2000 := List.length_replicate 2000 _
  have hlen : (tty_printf demo_session ['%', 's'] [Arg.str long_text]).con.output.length
      = 2000 := by
    rw [tty_printf_length, hr, hl]
    rfl
  have hst : (vsnprintf BUFSIZE ['%', 's'] [Arg.str long_text]).1.length = 1024 := by
    simp only [vsnprintf, hr, BUFSIZE]
    simp [hl]
  refine ⟨by rw [vsnprintf_snd, hr, hl], by rw [vsnprintf_snd, hr, hl]; decide, hlen, ?_, ?_⟩
  · intro h
    have h2 := congrArg List.length h
    rw [hlen, hr, List.length_take, hl] at h2
    simp [BUFSIZE] at h2
  · have ho : (tty_printf demo_session ['%', 's'] [Arg.str long_text]).con.output
        = (List.range 2000).map
            (overlay (vsnprintf BUFSIZE ['%', 's'] [Arg.str long_text]).1
              demo_session.con.stack) := by
      have hd : demo_session.con.output = [] := rfl
      simp only [tty_printf, WriteConsoleA, vsnprintf_snd, hr, hl, hd, List.nil_append]
    rw [ho, List.get?_eq_getElem?, List.getElem?_map, List.getElem?_range (by decide)]
    simp [overlay, hst]

/-- C7 (geometry fallback).  When the screen-buffer query fails, `tty_getwinsz` leaves a
session whose width is 80 and whose height is 25, whatever was cached before, and changes
no other field of the session and nothing of the console. -/
theorem tty_getwinsz_fallback (s : State)
    (h : GetConsoleScreenBufferInfo s.con s.tty.hout = none) :
    tty_getwidth (tty_getwinsz s) = 80
      ∧ tty_getheight (tty_getwinsz s) = 25
      ∧ (tty_getwinsz s).tty.hin = s.tty.hin
      ∧ (tty_getwinsz s).tty.hout = s.tty.hout
      ∧ (tty_getwinsz s).tty.original_conmode = s.tty.original_conmode
      ∧ (tty_getwinsz s).tty.fgcolor = s.tty.fgcolor
      ∧ (tty_getwinsz s).con = s.con
      ∧ tty_getwinsz s = { s with tty := { s.tty with maxwidth := 80, maxheight := 25 } } := by
  have e : tty_getwinsz s = { s with tty := { s.tty with maxwidth := 80, maxheight := 25 } } := by
    unfold tty_getwinsz
    rw [h]
  rw [e]
  exact ⟨rfl, rfl, rfl, rfl, rfl, rfl, rfl, rfl⟩

/-- C7 at `blind_session`, whose cached geometry was 120 by 30. -/
theorem tty_getwinsz_fallback_witness :
    GetConsoleScreenBufferInfo blind_session.con blind_session.tty.hout = none
      ∧ blind_session.tty.maxwidth = 120
      ∧ tty_getwidth (tty_getwinsz blind_session) = 80
      ∧ tty_getheight (tty_getwinsz blind_session) = 25 :=
  ⟨rfl, rfl, (tty_getwinsz_fallback blind_session rfl).1,
    (tty_getwinsz_fallback blind_session rfl).2.1⟩

/-- C8 (column positioning).  For a 0-based column `n` below `2 ^ 31 - 1`, `tty_setcol n`
appends exactly ESC `[`, the decimal digits of `n + 1`, `G` to the output and changes
nothing else: the session record and the rest of the console are as before.  The digits
are those of `n + 1`: read as a decimal number they give `n + 1`. -/
theorem tty_setcol_emits (s : State) (n : Nat) (h : n < 2 ^ 31 - 1) :
    tty_setcol s (n : Int)
        = { s with con := { s.con with
              output := s.con.output ++ '\x1b' :: '[' :: (Nat.toDigits 10 (n + 1) ++ ['G']) } }
      ∧ decimal_value (Nat.toDigits 10 (n + 1)) = n + 1
      ∧ (tty_setcol s (n : Int)).tty = s.tty := by
  have hv : int_add (n : Int) 1 = ((n + 1 : Nat) : Int) := by
    unfold int_add
    rw [wrap_int_id] <;> push_cast <;> omega
  have hf : fmt_i ((n + 1 : Nat) : Int) = Nat.toDigits 10 (n + 1) := by
    unfold fmt_i
    rw [if_neg (by omega)]
    rfl
  have hl := toDigits_length_le (n + 1) (by omega)
  have e : tty_setcol s (n : Int)
        = { s with con := { s.con with
              output := s.con.output ++ '\x1b' :: '[' :: (Nat.toDigits 10 (n + 1) ++ ['G']) } } := by
    unfold tty_setcol
    rw [hv, tty_printf_short, render_setcol, hf]
    rw [render_setcol, hf]
    simp only [List.length_cons, List.length_append, List.length_nil, BUFSIZE]
    omega
  refine ⟨e, toDigits_value (n + 1), ?_⟩
  rw [e]

/-- C8 at column 5: the output is ESC `[` `6` `G`. -/
theorem tty_setcol_emits_witness :
    (5 : Nat) < 2 ^ 31 - 1
      ∧ (tty_setcol demo_session 5).con.output = ['\x1b', '[', '6', 'G'] :=
  ⟨by decide, congrArg (fun t => t.con.output) (tty_setcol_emits demo_session 5 (by decide)).1⟩

/-- C9, counterexample.  On `fragile_console` the session that `tty_init` returns is in raw
mode (`0x3f0`, `0xf`) with original modes `0x1f7` and `0x3`; the two mode-set calls of the
first `tty_reset` fail, so it leaves the console in raw mode, not in the original modes, and
a second `tty_reset`, whose calls succeed, leaves the console in other modes than one. -/
theorem tty_reset_failed_calls_keep_raw_mode :
    tty_init fragile_console = Except.ok (session_of fragile_console)
      ∧ (session_of fragile_console).tty.original_conmode = { inp := 0x1f7, out := 0x3 }
      ∧ (tty_reset (session_of fragile_console)).con.inMode = 0x3f0
      ∧ (tty_reset (session_of fragile_console)).con.outMode = 0xf
      ∧ (tty_reset (session_of fragile_console)).con.inMode
          ≠ (session_of fragile_console).tty.original_conmode.inp
      ∧ (tty_reset (session_of fragile_console)).con.outMode
          ≠ (session_of fragile_console).tty.original_conmode.out
      ∧ (tty_reset (tty_reset (session_of fragile_console))).con.inMode = 0x1f7
      ∧ (tty_reset (tty_reset (session_of fragile_console))).con.inMode
          ≠ (tty_reset (session_of fragile_console)).con.inMode := by
  obtain ⟨s, hs, ho, hk, hi, hout⟩ := tty_init_facts fragile_console rfl rfl rfl rfl
  have he : session_of fragile_console = s := by rw [session_of, hs]
  rw [he]
  have k0 : s.con.setOk 0 = false := by rw [hk 0]; rfl
  have k1 : s.con.setOk 1 = false := by rw [hk 1]; rfl
  have i1 : (tty_reset s).con.inMode = 0x3f0 := by
    rw [tty_reset_inMode, k0, if_neg (by decide), hi]
    decide
  have o1 : (tty_reset s).con.outMode = 0xf := by
    rw [tty_reset_outMode, k1, if_neg (by decide), hout]
    decide
  have k4 : fragile_console.setOk (2 + 2) = true := rfl
  have i2 : (tty_reset (tty_reset s)).con.inMode = 0x1f7 := by
    rw [tty_reset_inMode, tty_reset_setOk, hk 2, if_pos k4]
    show s.tty.original_conmode.inp = 0x1f7
    rw [ho]
    rfl
  refine ⟨hs, ho, i1, o1, ?_, ?_, i2, ?_⟩
  · rw [i1, ho]
    decide
  · rw [o1, ho]
    decide
  · rw [i1, i2]
    decide

/-- C9, amended.  `tty_reset` leaves the session record as it is; each of its two mode-set
calls sets its mode (the input mode first, then the output mode) to the stored original
mode when the call succeeds and leaves that mode as it was when the call fails; and on a
console whose mode-set calls all succeed, `tty_reset` twice leaves the same state as
`tty_reset` once. -/
theorem tty_reset_restores (s : State) :
    (tty_reset s).tty = s.tty
      ∧ (tty_reset s).con.inMode
          = (if s.con.setOk 0 = true then s.tty.original_conmode.inp else s.con.inMode)
      ∧ (tty_reset s).con.outMode
          = (if s.con.setOk 1 = true then s.tty.original_conmode.out else s.con.outMode)
      ∧ ((∀ k, s.con.setOk k = true) → tty_reset (tty_reset s) = tty_reset s) := by
  refine ⟨rfl, tty_reset_inMode s, tty_reset_outMode s, ?_⟩
  intro h
  have h2 : ∀ k, (tty_reset s).con.setOk k = true := fun k => by
    rw [tty_reset_setOk]
    exact h (k + 2)
  rw [tty_reset_of_all_ok _ h2, tty_reset_of_all_ok s h]

/-- C9, amended, on `demo_session`, whose console accepts every mode-set call: the modes
become the stored `0x1f7` and `0x3`, and a second `tty_reset` changes nothing. -/
theorem tty_reset_restores_witness :
    (tty_reset demo_session).con.inMode = 0x1f7
      ∧ (tty_reset demo_session).con.outMode = 0x3
      ∧ tty_reset (tty_reset demo_session) = tty_reset demo_session :=
  ⟨(tty_reset_restores demo_session).2.1, (tty_reset_restores demo_session).2.2.1,
    (tty_reset_restores demo_session).2.2.2 (fun _ => rfl)⟩

/-- C10 (newline).  `tty_newline` appends exactly carriage return (0x0D) then line feed
(0x0A) to the output, which is not a line feed alone, and changes nothing else: the session
record and the rest of the console are as before. -/
theorem tty_newline_crlf (s : State) :
    tty_newline s
        = { s with con := { s.con with
              output := s.con.output ++ [Char.ofNat 0x0D, Char.ofNat 0x0A] } }
      ∧ (tty_newline s).con.output = s.con.output ++ [Char.ofNat 0x0D, Char.ofNat 0x0A]
      ∧ (tty_newline s).con.output ≠ s.con.output ++ [Char.ofNat 0x0A]
      ∧ (tty_newline s).tty = s.tty := by
  have e : tty_newline s
        = { s with con := { s.con with
              output := s.con.output ++ [Char.ofNat 0x0D, Char.ofNat 0x0A] } } := by
    unfold tty_newline
    rw [tty_printf_short]
    · rfl
    · decide
  rw [e]
  refine ⟨rfl, rfl, ?_, rfl⟩
  simp

end TtyWin32
